import Mathlib

/-!
Shallow embedding of `src/data_ingestion.py` from the walmart-sales-prediction
repository: a single-run batch pipeline that fetches Walmart stock data and
historical weather data, transforms them into typed records, and upserts them
into two PostgreSQL tables.

Numeric JSON/string values are modelled as `Rat` (Python `float(...)` on the
decimal strings the APIs return); calendar dates as a `Date` structure; the
Python dictionaries as structures with `Option` fields (a `none` field models
a missing key, i.e. a `KeyError` on access); fallible per-record conversion as
`Option`; and the abortable weather transform as `Except`.
-/

set_option autoImplicit false

namespace Ingestion

/-- A calendar date, as produced by `datetime.strptime(s, "%Y-%m-%d").date()`. -/
structure Date where
  year : Nat
  month : Nat
  day : Nat
deriving DecidableEq, Repr

/-- Python `date` comparison `a < b`: calendar order, i.e. lexicographic on
(year, month, day). -/
def dateLt (a b : Date) : Bool :=
  if a.year ≠ b.year then decide (a.year < b.year)
  else if a.month ≠ b.month then decide (a.month < b.month)
  else decide (a.day < b.day)

/-- Numeric value of a list of decimal digit characters. -/
def digitsVal (cs : List Char) : Nat :=
  cs.foldl (fun a c => a * 10 + (c.toNat - 48)) 0

/-- Parse a non-empty all-digit character list to a natural number. -/
def parseNatAll (cs : List Char) : Option Nat :=
  if cs ≠ [] ∧ cs.all Char.isDigit then some (digitsVal cs) else none

/-- Split a character list on `'-'` (the separators of the `%Y-%m-%d` format). -/
def splitDash : List Char → List (List Char)
  | [] => [[]]
  | c :: rest =>
    let r := splitDash rest
    if c = '-' then [] :: r
    else
      match r with
      | [] => [[c]]
      | g :: gs => (c :: g) :: gs

/-- Number of days in a month, with the Gregorian leap-year rule
(as validated by `datetime.strptime`). -/
def daysInMonth (y m : Nat) : Nat :=
  if m = 2 then
    if (y % 4 = 0 ∧ ¬ y % 100 = 0) ∨ y % 400 = 0 then 29 else 28
  else if m = 4 ∨ m = 6 ∨ m = 9 ∨ m = 11 then 30 else 31

/-- `datetime.strptime(s, "%Y-%m-%d").date()`: three dash-separated digit
groups (year up to 4 digits, month and day 1 or 2 digits), month and day in
range; `none` models the `ValueError` raised on a malformed date string. -/
def parseDate (s : String) : Option Date :=
  match splitDash s.toList with
  | [ys, ms, ds] =>
    match parseNatAll ys, parseNatAll ms, parseNatAll ds with
    | some y, some m, some d =>
      if ys.length ≤ 4 ∧ 1 ≤ m ∧ m ≤ 12 ∧ 1 ≤ d ∧ d ≤ daysInMonth y m
      then some ⟨y, m, d⟩ else none
    | _, _, _ => none
  | _ => none

/-- Unsigned decimal literal (digit string with at most one dot), as accepted
by Python `float(...)` on the API's decimal strings. -/
def parseUnsignedDec (cs : List Char) : Option Rat :=
  let ip := cs.takeWhile (fun c => c ≠ '.')
  let rest := cs.dropWhile (fun c => c ≠ '.')
  match rest with
  | [] => (parseNatAll ip).map (fun n => (n : Rat))
  | _ :: frac =>
    if frac.any (fun c => c = '.') then none
    else if ip.all Char.isDigit ∧ frac.all Char.isDigit ∧ (ip ≠ [] ∨ frac ≠ []) then
      some (mkRat (digitsVal ip * 10 ^ frac.length + digitsVal frac) (10 ^ frac.length))
    else none

/-- Python `float(s)` on a decimal string: optional sign then an unsigned
decimal literal; `none` models the `ValueError` on a non-numeric string. -/
def parseFloat (s : String) : Option Rat :=
  match s.toList with
  | '+' :: rest => parseUnsignedDec rest
  | '-' :: rest => (parseUnsignedDec rest).map (fun q => -q)
  | cs => parseUnsignedDec cs

/-- Python `int(s)` on a string: optional sign then digits only; `none` models
the `ValueError` on a non-integer string. -/
def parseIntStr (s : String) : Option Int :=
  match s.toList with
  | '+' :: rest => (parseNatAll rest).map (fun n => (n : Int))
  | '-' :: rest => (parseNatAll rest).map (fun n => -(n : Int))
  | cs => (parseNatAll cs).map (fun n => (n : Int))

/-- Python `int(x)` on a number: truncation toward zero. -/
def truncRat (q : Rat) : Int :=
  if q < 0 then -(Rat.floor (-q)) else Rat.floor q

/-- One day's raw stock entry: the Alpha Vantage per-date dictionary.
Fields correspond to the keys `"1. open"` … `"8. split coefficient"`;
a `none` field models a missing key (`KeyError` on access). -/
structure RawStockDaily where
  openStr : Option String
  highStr : Option String
  lowStr : Option String
  closeStr : Option String
  adjCloseStr : Option String
  volumeStr : Option String
  dividendStr : Option String
  splitStr : Option String
deriving DecidableEq, Repr

/-- A typed stock record as built by `process_stock_data`. -/
structure StockRecord where
  date : Date
  open_price : Rat
  high_price : Rat
  low_price : Rat
  close_price : Rat
  adjusted_close : Rat
  volume : Int
  dividend_amount : Rat
  split_coefficient : Rat
deriving DecidableEq, Repr

/-- The eight numeric field conversions of one stock row, in source order.
`none` models a `KeyError` (missing key) or `ValueError` (non-numeric value)
raised while building the record. -/
def parseStockNums (d : RawStockDaily) :
    Option (Rat × Rat × Rat × Rat × Rat × Int × Rat × Rat) := do
  let o ← d.openStr.bind parseFloat
  let h ← d.highStr.bind parseFloat
  let l ← d.lowStr.bind parseFloat
  let c ← d.closeStr.bind parseFloat
  let ac ← d.adjCloseStr.bind parseFloat
  let v ← d.volumeStr.bind parseIntStr
  let da ← d.dividendStr.bind parseFloat
  let sc ← d.splitStr.bind parseFloat
  pure (o, h, l, c, ac, v, da, sc)

/-- The body of the `process_stock_data` loop for one `(date_str, daily_data)`
item. `oneYearAgo` is the value `date.today() - timedelta(days=365)` computed
by the source; `none` is a skipped row (caught `ValueError`/`KeyError`, or the
trailing-window `continue`). -/
def processStockRow (oneYearAgo : Date) (dateStr : String) (d : RawStockDaily) :
    Option StockRecord :=
  match parseDate dateStr with
  | none => none
  | some dt =>
    if dateLt dt oneYearAgo then none
    else
      match parseStockNums d with
      | none => none
      | some (o, h, l, c, ac, v, da, sc) =>
        some ⟨dt, o, h, l, c, ac, v, da, sc⟩

/-- `process_stock_data`: iterate the raw time series in order, keeping the
rows that convert and fall inside the one-year window. -/
def process_stock_data (oneYearAgo : Date) :
    List (String × RawStockDaily) → List StockRecord
  | [] => []
  | (s, d) :: rest =>
    match processStockRow oneYearAgo s d with
    | none => process_stock_data oneYearAgo rest
    | some r => r :: process_stock_data oneYearAgo rest

/-- A per-record conversion failure in `process_stock_data`: the date string
does not parse (`ValueError` from `strptime`), or the row is inside the window
and one of its eight field conversions fails (`ValueError`/`KeyError`). -/
def stockConvFailure (oneYearAgo : Date) (dateStr : String) (d : RawStockDaily) : Prop :=
  parseDate dateStr = none ∨
    (∃ dt, parseDate dateStr = some dt ∧ dateLt dt oneYearAgo = false ∧
      parseStockNums d = none)

/-- The raw weather payload: the Open-Meteo `daily` dictionary of parallel
arrays. `time` is read unconditionally before the loop; for the seven value
arrays a `none` at the outer level models a missing key (`KeyError`), and a
`none` entry models a JSON `null` (Python `None`). -/
structure WeatherDaily where
  time : List String
  temperature_2m_max : Option (List (Option Rat))
  temperature_2m_min : Option (List (Option Rat))
  temperature_2m_mean : Option (List (Option Rat))
  relative_humidity_2m_max : Option (List (Option Rat))
  surface_pressure : Option (List (Option Rat))
  windspeed_10m_max : Option (List (Option Rat))
  precipitation_sum : Option (List (Option Rat))
deriving Repr

/-- A typed weather record as built by `process_weather_data`. -/
structure WeatherRecord where
  date : Date
  city : String
  temperature_avg : Option Rat
  temperature_min : Option Rat
  temperature_max : Option Rat
  humidity : Option Int
  pressure : Option Rat
  wind_speed : Option Rat
  weather_condition : String
  weather_description : String
  visibility : Rat
  uv_index : Rat
deriving DecidableEq, Repr

/-- `daily_weather_data[key][i]`: outer `none` is a `KeyError`, inner out-of-range
index is an `IndexError` — both members of the caught exception set. -/
def lookupIdx (arr : Option (List (Option Rat))) (i : Nat) : Option (Option Rat) :=
  match arr with
  | none => none
  | some l => l.get? i

/-- Outcome of the `process_weather_data` loop body for one index:
a typed record, a skip (caught `ValueError`/`KeyError`/`IndexError`), or an
uncaught exception (`TypeError` from comparing `None > 0`) that aborts the
whole transform. -/
inductive WRow where
  | ok (r : WeatherRecord)
  | skip
  | fatal
deriving DecidableEq, Repr

def WRow.isOk : WRow → Bool
  | .ok _ => true
  | _ => false

def WRow.isSkip : WRow → Bool
  | .skip => true
  | _ => false

/-- The body of the `process_weather_data` loop at index `i` with date string
`dateStr`, reading the seven parallel arrays in source order. A `none`
precipitation entry reaches the f-string guard `precipitation > 0`, where
Python raises `TypeError` — not in the caught set, hence `.fatal`. -/
def processWeatherRow (d : WeatherDaily) (city : String) (i : Nat)
    (dateStr : String) : WRow :=
  match parseDate dateStr with
  | none => .skip
  | some dt =>
    match lookupIdx d.temperature_2m_max i with
    | none => .skip
    | some tmax =>
      match lookupIdx d.temperature_2m_min i with
      | none => .skip
      | some tmin =>
        match lookupIdx d.temperature_2m_mean i with
        | none => .skip
        | some tmean =>
          match lookupIdx d.relative_humidity_2m_max i with
          | none => .skip
          | some hum =>
            match lookupIdx d.surface_pressure i with
            | none => .skip
            | some pres =>
              match lookupIdx d.windspeed_10m_max i with
              | none => .skip
              | some wind =>
                match lookupIdx d.precipitation_sum i with
                | none => .skip
                | some precip =>
                  match precip with
                  | none => .fatal
                  | some p =>
                    .ok { date := dt, city := city,
                          temperature_avg := tmean,
                          temperature_min := tmin,
                          temperature_max := tmax,
                          humidity := hum.map truncRat,
                          pressure := pres,
                          wind_speed := wind,
                          weather_condition :=
                            if p == 0 then "Clear" else "Precipitation",
                          weather_description :=
                            if 0 < p then "Precipitation: " ++ toString p ++ "mm"
                            else "Clear day",
                          visibility := 10,
                          uv_index := 5 }

/-- The `process_weather_data` loop from index `i` over the remaining date
strings: a skip continues, a fatal row propagates out of the whole call
(records accumulated so far are lost), an ok row is appended. -/
def weatherAux (d : WeatherDaily) (city : String) :
    Nat → List String → Except Unit (List WeatherRecord)
  | _, [] => .ok []
  | i, s :: rest =>
    match processWeatherRow d city i s with
    | .fatal => .error ()
    | .skip => weatherAux d city (i + 1) rest
    | .ok r =>
      match weatherAux d city (i + 1) rest with
      | .error e => .error e
      | .ok l => .ok (r :: l)

/-- `process_weather_data`: enumerate `daily_weather_data['time']`, producing
the list of typed records, or an uncaught exception. -/
def process_weather_data (d : WeatherDaily) (city : String) :
    Except Unit (List WeatherRecord) :=
  weatherAux d city 0 d.time

/-- The records of the rows that convert, from index `i` on (the skipped rows
contribute nothing). -/
def weatherOkRecords (d : WeatherDaily) (city : String) :
    Nat → List String → List WeatherRecord
  | _, [] => []
  | i, s :: rest =>
    match processWeatherRow d city i s with
    | .ok r => r :: weatherOkRecords d city (i + 1) rest
    | _ => weatherOkRecords d city (i + 1) rest

/-- Boolean transcript of "row `i` is skipped by a caught conversion failure
and every other row converts", checked from index `k` over the remaining date
strings. -/
def weatherRowsOkExcept (d : WeatherDaily) (city : String) (i : Nat) :
    Nat → List String → Bool
  | _, [] => true
  | k, s :: rest =>
    (if k = i then (processWeatherRow d city k s).isSkip
     else (processWeatherRow d city k s).isOk) &&
      weatherRowsOkExcept d city i (k + 1) rest

/-- Table name in the SQL text of `insert_stock_data`'s upsert. -/
def stockTableName : String := "walmart_raw_data"

/-- Table name in the SQL text of `insert_weather_data`'s upsert. -/
def weatherTableName : String := "weather_raw_data"

/-- `INSERT ... ON CONFLICT (date) DO UPDATE SET <all non-key columns>`:
if a row with the same date exists, all its non-key columns take the new
values (the key is equal, so the row becomes `r`); otherwise append. -/
def stockUpsert (table : List StockRecord) (r : StockRecord) : List StockRecord :=
  if table.any (fun x => decide (x.date = r.date)) then
    table.map (fun x => if x.date = r.date then r else x)
  else table ++ [r]

/-- `INSERT ... ON CONFLICT (date, city) DO UPDATE SET <all non-key columns>`. -/
def weatherUpsert (table : List WeatherRecord) (r : WeatherRecord) :
    List WeatherRecord :=
  if table.any (fun x => decide (x.date = r.date ∧ x.city = r.city)) then
    table.map (fun x => if x.date = r.date ∧ x.city = r.city then r else x)
  else table ++ [r]

/-- Outcome of one loader call: the returned count or re-raised error, the
committed table after the call, and the table names of the upsert statements
that were issued (the failing statement included). -/
structure LoadResult (ρ : Type) where
  result : Except Unit Nat
  table : List ρ
  issued : List String
deriving Repr

/-- The `cursor.execute` loop of `insert_stock_data`: `sf r = true` means the
statement for `r` raises `psycopg2.Error`. Returns `none` on a raise (plus the
issued statements), otherwise the count and the pending (uncommitted) table. -/
def insertStockGo (sf : StockRecord → Bool) (pending : List StockRecord)
    (count : Nat) : List StockRecord → Option (Nat × List StockRecord) × List String
  | [] => (some (count, pending), [])
  | r :: rest =>
    if sf r then (none, [stockTableName])
    else
      let res := insertStockGo sf (stockUpsert pending r) (count + 1) rest
      (res.1, stockTableName :: res.2)

/-- `insert_stock_data`: runs the statement loop against the committed table;
on any statement error it rolls back (committed table unchanged) and re-raises,
otherwise it commits the pending table and returns the count. -/
def insert_stock_data (sf : StockRecord → Bool) (committed : List StockRecord)
    (data : List StockRecord) : LoadResult StockRecord :=
  match insertStockGo sf committed 0 data with
  | (none, tr) => ⟨.error (), committed, tr⟩
  | (some (n, pending), tr) => ⟨.ok n, pending, tr⟩

/-- The `cursor.execute` loop of `insert_weather_data`. -/
def insertWeatherGo (wf : WeatherRecord → Bool) (pending : List WeatherRecord)
    (count : Nat) : List WeatherRecord → Option (Nat × List WeatherRecord) × List String
  | [] => (some (count, pending), [])
  | r :: rest =>
    if wf r then (none, [weatherTableName])
    else
      let res := insertWeatherGo wf (weatherUpsert pending r) (count + 1) rest
      (res.1, weatherTableName :: res.2)

/-- `insert_weather_data`: rollback-and-re-raise on statement error, commit
otherwise. -/
def insert_weather_data (wf : WeatherRecord → Bool) (committed : List WeatherRecord)
    (data : List WeatherRecord) : LoadResult WeatherRecord :=
  match insertWeatherGo wf committed 0 data with
  | (none, tr) => ⟨.error (), committed, tr⟩
  | (some (n, pending), tr) => ⟨.ok n, pending, tr⟩

/-- The committed database state: the two tables. -/
structure DBState where
  stock : List StockRecord
  weather : List WeatherRecord
deriving Repr

/-- `verify_data_insertion`: counts both tables (plus read-only date-range
queries) and returns `stock_count > 0 and weather_count > 0`; a
`psycopg2.Error` during the reads is caught and yields `False`
(`verifyErr` models such an error). -/
def verify_data_insertion (verifyErr : Bool) (db : DBState) : Bool :=
  if verifyErr then false
  else decide (0 < db.stock.length) && decide (0 < db.weather.length)

/-- The database connection parameters assembled by
`load_environment_variables`. -/
structure DBConfig where
  host : String
  port : String
  database : String
  user : String
  password : Option String
deriving Repr

/-- Python truthiness of `os.getenv`'s result: `None` or the empty string. -/
def falsyOptStr : Option String → Bool
  | none => true
  | some s => s.isEmpty

/-- `load_environment_variables`: reads the API key and the five connection
parameters from the environment, raising `ValueError` (modelled as `.error`)
if the API key or the password is absent or empty. -/
def load_environment_variables (env : String → Option String) :
    Except String (String × DBConfig) :=
  let apiKey := env "ALPHA_VANTAGE_API_KEY"
  let cfg : DBConfig :=
    { host := (env "DB_HOST").getD "localhost"
      port := (env "DB_PORT").getD "5432"
      database := (env "DB_NAME").getD "walmart_sales_db"
      user := (env "DB_USER").getD "postgres"
      password := env "DB_PASSWORD" }
  if falsyOptStr apiKey then
    .error "ALPHA_VANTAGE_API_KEY not found in environment variables"
  else if falsyOptStr cfg.password then
    .error "DB_PASSWORD not found in environment variables"
  else
    .ok (apiKey.getD "", cfg)

/-- The observable stages of one run of `main`, in the order the source
executes them. `connect` is recorded only when the connection opens;
`httpStock`/`httpWeather` are recorded when the HTTP call is issued. -/
inductive Event where
  | loadEnv
  | httpStock
  | transformStock
  | httpWeather
  | transformWeather
  | connect
  | loadStock
  | loadWeather
  | verify
  | closeConn
deriving DecidableEq, Repr

/-- The ambient world of one run: the environment, the two HTTP responses
(`.error` = request/provider failure), the value of
`date.today() - timedelta(days=365)`, the connection attempt's outcome
(`none` = `psycopg2` connection error, `some db` = the committed database
found on connect), the per-statement database error oracles, and whether the
verification reads raise. -/
structure World where
  env : String → Option String
  stockFetch : Except String (List (String × RawStockDaily))
  weatherFetch : Except String (WeatherDaily × String)
  oneYearAgo : Date
  connectOk : Option DBState
  stockStmtFails : StockRecord → Bool
  weatherStmtFails : WeatherRecord → Bool
  verifyErr : Bool

/-- `main`: the full orchestration, returning the reported success flag and
the trace of stages that ran. Mirrors the source: config, stock fetch, stock
transform (with its emptiness guard), weather fetch, weather transform,
connect, the two loads, verification, and the `finally` that closes an opened
connection on every path. -/
def mainRun (w : World) : Bool × List Event :=
  match load_environment_variables w.env with
  | .error _ => (false, [.loadEnv])
  | .ok _ =>
    match w.stockFetch with
    | .error _ => (false, [.loadEnv, .httpStock])
    | .ok ts =>
      if (process_stock_data w.oneYearAgo ts).isEmpty then
        (false, [.loadEnv, .httpStock, .transformStock])
      else
        match w.weatherFetch with
        | .error _ =>
          (false, [.loadEnv, .httpStock, .transformStock, .httpWeather])
        | .ok (wd, city) =>
          match process_weather_data wd city with
          | .error _ =>
            (false, [.loadEnv, .httpStock, .transformStock, .httpWeather,
                     .transformWeather])
          | .ok pw =>
            match w.connectOk with
            | none =>
              (false, [.loadEnv, .httpStock, .transformStock, .httpWeather,
                       .transformWeather])
            | some db =>
              match (insert_stock_data w.stockStmtFails db.stock
                  (process_stock_data w.oneYearAgo ts)).result with
              | .error _ =>
                (false, [.loadEnv, .httpStock, .transformStock, .httpWeather,
                         .transformWeather, .connect, .loadStock, .closeConn])
              | .ok _ =>
                match (insert_weather_data w.weatherStmtFails db.weather pw).result with
                | .error _ =>
                  (false, [.loadEnv, .httpStock, .transformStock, .httpWeather,
                           .transformWeather, .connect, .loadStock, .loadWeather,
                           .closeConn])
                | .ok _ =>
                  (verify_data_insertion w.verifyErr
                      ⟨(insert_stock_data w.stockStmtFails db.stock
                          (process_stock_data w.oneYearAgo ts)).table,
                        (insert_weather_data w.weatherStmtFails db.weather pw).table⟩,
                    [.loadEnv, .httpStock, .transformStock, .httpWeather,
                     .transformWeather, .connect, .loadStock, .loadWeather,
                     .verify, .closeConn])

/-- The stage order of a fully successful run, as the source executes it. -/
def canonicalTrace : List Event :=
  [.loadEnv, .httpStock, .transformStock, .httpWeather, .transformWeather,
   .connect, .loadStock, .loadWeather, .verify, .closeConn]

/-- A raw stock row with every field a well-formed numeric string. -/
def exRawGood : RawStockDaily :=
  ⟨some "1.0", some "2.0", some "0.5", some "1.5", some "1.5",
   some "1000", some "0.0", some "1.0"⟩

/-- A two-day weather payload with all values present. -/
def exWD : WeatherDaily :=
  { time := ["2024-06-01", "2024-06-02"]
    temperature_2m_max := some [some 25, some 30]
    temperature_2m_min := some [some 10, some 12]
    temperature_2m_mean := some [some 18, some 20]
    relative_humidity_2m_max := some [some 80, some 70]
    surface_pressure := some [some 1000, some 1001]
    windspeed_10m_max := some [some 5, some 6]
    precipitation_sum := some [some 0, some 3] }

/-- `exWD` with its second precipitation entry replaced by a JSON null. -/
def exWDNull : WeatherDaily :=
  { exWD with precipitation_sum := some [some 0, none] }

/-- A single-day weather payload used by the concrete instances below. -/
def exWD1 : WeatherDaily :=
  { time := ["2024-06-01"]
    temperature_2m_max := some [some 25]
    temperature_2m_min := some [some 10]
    temperature_2m_mean := some [some 18]
    relative_humidity_2m_max := some [some 80]
    surface_pressure := some [some 1000]
    windspeed_10m_max := some [some 5]
    precipitation_sum := some [some 0] }

/-- An environment holding exactly the two required variables. -/
def exEnv : String → Option String := fun k =>
  if k = "ALPHA_VANTAGE_API_KEY" then some "testkey"
  else if k = "DB_PASSWORD" then some "pw"
  else none

/-- A world in which every stage succeeds: one valid in-window stock row, one
valid weather row, an initially empty database, and no statement errors. -/
def exWorldOK : World :=
  { env := exEnv
    stockFetch := .ok [("2024-06-01", exRawGood)]
    weatherFetch := .ok (exWD1, "Bentonville")
    oneYearAgo := ⟨2024, 1, 1⟩
    connectOk := some ⟨[], []⟩
    stockStmtFails := fun _ => false
    weatherStmtFails := fun _ => false
    verifyErr := false }

/-- A stock row whose open-price string is non-numeric: `float('abc')` raises
`ValueError`, a caught per-record failure. -/
def exRawBad : RawStockDaily :=
  ⟨some "abc", some "2.0", some "0.5", some "1.5", some "1.5",
   some "1000", some "0.0", some "1.0"⟩

/-- The typed record `process_stock_data` derives from `exRawGood` dated
2024-06-01. -/
def exStockRec : StockRecord :=
  ⟨⟨2024, 6, 1⟩, 1, 2, mkRat 1 2, mkRat 3 2, mkRat 3 2, 1000, 0, 1⟩

/-- The typed record `process_weather_data` derives from `exWD1`. -/
def exWeatherRec : WeatherRecord :=
  { date := ⟨2024, 6, 1⟩, city := "Bentonville", temperature_avg := some 18,
    temperature_min := some 10, temperature_max := some 25, humidity := some 80,
    pressure := some 1000, wind_speed := some 5, weather_condition := "Clear",
    weather_description := "Clear day", visibility := 10, uv_index := 5 }

/-- A weather payload whose middle row has a malformed date string — a caught
`ValueError`, so exactly that row is skipped. -/
def exWDBadDate : WeatherDaily :=
  { time := ["2024-06-01", "bad-date", "2024-06-03"]
    temperature_2m_max := some [some 25, some 26, some 27]
    temperature_2m_min := some [some 10, some 11, some 12]
    temperature_2m_mean := some [some 18, some 19, some 20]
    relative_humidity_2m_max := some [some 80, some 81, some 82]
    surface_pressure := some [some 1000, some 1001, some 1002]
    windspeed_10m_max := some [some 5, some 6, some 7]
    precipitation_sum := some [some 0, some 1, some 2] }

-- ======================================================================
-- Theorems
-- ======================================================================

theorem insertStockGo_issued (sf : StockRecord → Bool) :
    ∀ (data : List StockRecord) (pending : List StockRecord) (count : Nat)
      (t : String), t ∈ (insertStockGo sf pending count data).2 →
      t = stockTableName := by
  intro data
  induction data with
  | nil => intro pending count t ht; simp [insertStockGo] at ht
  | cons r rest ih =>
    intro pending count t ht
    unfold insertStockGo at ht
    by_cases hf : sf r
    · simp [hf] at ht; exact ht
    · simp [hf] at ht
      rcases ht with ht | ht
      · exact ht
      · exact ih _ _ t ht

theorem insertWeatherGo_issued (wf : WeatherRecord → Bool) :
    ∀ (data : List WeatherRecord) (pending : List WeatherRecord) (count : Nat)
      (t : String), t ∈ (insertWeatherGo wf pending count data).2 →
      t = weatherTableName := by
  intro data
  induction data with
  | nil => intro pending count t ht; simp [insertWeatherGo] at ht
  | cons r rest ih =>
    intro pending count t ht
    unfold insertWeatherGo at ht
    by_cases hf : wf r
    · simp [hf] at ht; exact ht
    · simp [hf] at ht
      rcases ht with ht | ht
      · exact ht
      · exact ih _ _ t ht

theorem insert_stock_data_issued (sf : StockRecord → Bool)
    (committed data : List StockRecord) :
    (insert_stock_data sf committed data).issued =
      (insertStockGo sf committed 0 data).2 := by
  unfold insert_stock_data
  split <;> simp_all

theorem insert_weather_data_issued (wf : WeatherRecord → Bool)
    (committed data : List WeatherRecord) :
    (insert_weather_data wf committed data).issued =
      (insertWeatherGo wf committed 0 data).2 := by
  unfold insert_weather_data
  split <;> simp_all

theorem insertStockGo_fail (sf : StockRecord → Bool) :
    ∀ (data : List StockRecord) (pending : List StockRecord) (count : Nat),
      (∃ r ∈ data, sf r = true) →
      (insertStockGo sf pending count data).1 = none := by
  intro data
  induction data with
  | nil => intro pending count h; simp at h
  | cons r rest ih =>
    intro pending count h
    unfold insertStockGo
    by_cases hf : sf r
    · simp [hf]
    · rcases h with ⟨r', hr', hfr'⟩
      rcases List.mem_cons.mp hr' with rfl | hr'
      · exact absurd hfr' (by simp [hf])
      · simp [hf]
        exact ih _ _ ⟨r', hr', hfr'⟩

theorem insertWeatherGo_fail (wf : WeatherRecord → Bool) :
    ∀ (data : List WeatherRecord) (pending : List WeatherRecord) (count : Nat),
      (∃ r ∈ data, wf r = true) →
      (insertWeatherGo wf pending count data).1 = none := by
  intro data
  induction data with
  | nil => intro pending count h; simp at h
  | cons r rest ih =>
    intro pending count h
    unfold insertWeatherGo
    by_cases hf : wf r
    · simp [hf]
    · rcases h with ⟨r', hr', hfr'⟩
      rcases List.mem_cons.mp hr' with rfl | hr'
      · exact absurd hfr' (by simp [hf])
      · simp [hf]
        exact ih _ _ ⟨r', hr', hfr'⟩

/-- C3: if any upsert statement in a dataset's transaction raises a database
error, the loader (`insert_stock_data`, `insert_weather_data`) rolls the
transaction back and re-raises, leaving that table's committed state exactly
as it was before the call. -/
theorem c3_rollback_on_statement_error (sf : StockRecord → Bool)
    (wf : WeatherRecord → Bool) (st sd : List StockRecord)
    (wt wdl : List WeatherRecord)
    (hs : ∃ r ∈ sd, sf r = true) (hw : ∃ r ∈ wdl, wf r = true) :
    (insert_stock_data sf st sd).result = .error () ∧
    (insert_stock_data sf st sd).table = st ∧
    (insert_weather_data wf wt wdl).result = .error () ∧
    (insert_weather_data wf wt wdl).table = wt := by
  have h1 := insertStockGo_fail sf sd st 0 hs
  have h2 := insertWeatherGo_fail wf wdl wt 0 hw
  unfold insert_stock_data insert_weather_data
  rcases hgo1 : insertStockGo sf st 0 sd with ⟨res1, tr1⟩
  rcases hgo2 : insertWeatherGo wf wt 0 wdl with ⟨res2, tr2⟩
  rw [hgo1] at h1
  rw [hgo2] at h2
  simp at h1 h2
  subst h1; subst h2
  simp

/-- C3 witness: a single failing statement in each dataset rolls both loads
back to the pre-call tables. -/
theorem c3_rollback_on_statement_error_witness :
    (∃ r ∈ [exStockRec], (fun (_ : StockRecord) => true) r = true) ∧
    (insert_stock_data (fun _ => true) [] [exStockRec]).result = .error () ∧
    (insert_stock_data (fun _ => true) [] [exStockRec]).table = [] := by
  have h := c3_rollback_on_statement_error (fun _ => true) (fun _ => true)
    [] [exStockRec] [] [exWeatherRec]
    ⟨exStockRec, by simp, rfl⟩ ⟨exWeatherRec, by simp, rfl⟩
  exact ⟨⟨exStockRec, by simp, rfl⟩, h.1, h.2.1⟩

/-- C7 counterexample: the upsert issued by the stock loader targets the table
`walmart_raw_data`, which is neither of the names the claim allows
(`stock_raw_data`, `weather_raw_data`). -/
theorem c7_counterexample :
    (insert_stock_data (fun _ => false) [] [exStockRec]).issued =
      ["walmart_raw_data"] ∧
    ¬("walmart_raw_data" = "stock_raw_data" ∨
      "walmart_raw_data" = "weather_raw_data") := by decide

/-- C7 amended: every upsert statement issued by the loaders targets one of
the two tables `walmart_raw_data` (stock) and `weather_raw_data` (weather). -/
theorem c7_table_names (sf : StockRecord → Bool) (wf : WeatherRecord → Bool)
    (st sd : List StockRecord) (wt wdl : List WeatherRecord) (t : String) :
    (t ∈ (insert_stock_data sf st sd).issued → t = "walmart_raw_data") ∧
    (t ∈ (insert_weather_data wf wt wdl).issued → t = "weather_raw_data") := by
  constructor
  · intro ht
    rw [insert_stock_data_issued] at ht
    exact insertStockGo_issued sf sd st 0 t ht
  · intro ht
    rw [insert_weather_data_issued] at ht
    exact insertWeatherGo_issued wf wdl wt 0 t ht

/-- C7 witness: a concrete issued statement from each loader carries the
corresponding table name. -/
theorem c7_table_names_witness :
    "walmart_raw_data" ∈ (insert_stock_data (fun _ => false) [] [exStockRec]).issued ∧
    ("walmart_raw_data" ∈ (insert_stock_data (fun _ => false) [] [exStockRec]).issued →
      "walmart_raw_data" = "walmart_raw_data") := by
  exact ⟨by decide, fun h =>
    (c7_table_names (fun _ => false) (fun _ => false) [] [exStockRec] [] []
      "walmart_raw_data").1 h⟩

/-- C2: for every weather input row that `process_weather_data` turns into a
typed record, a precipitation of 0 yields `weather_condition = "Clear"` and a
positive precipitation yields `weather_condition = "Precipitation"`. -/
theorem c2_precipitation_condition (d : WeatherDaily) (city s : String)
    (i : Nat) (r : WeatherRecord) (p : Rat)
    (hrow : processWeatherRow d city i s = .ok r)
    (hp : lookupIdx d.precipitation_sum i = some (some p)) :
    (p = 0 → r.weather_condition = "Clear") ∧
    (0 < p → r.weather_condition = "Precipitation") := by
  cases hd : parseDate s with
  | none => simp [processWeatherRow, hd] at hrow
  | some dt =>
    cases h1 : lookupIdx d.temperature_2m_max i with
    | none => simp [processWeatherRow, hd, h1] at hrow
    | some tmax =>
      cases h2 : lookupIdx d.temperature_2m_min i with
      | none => simp [processWeatherRow, hd, h1, h2] at hrow
      | some tmin =>
        cases h3 : lookupIdx d.temperature_2m_mean i with
        | none => simp [processWeatherRow, hd, h1, h2, h3] at hrow
        | some tmean =>
          cases h4 : lookupIdx d.relative_humidity_2m_max i with
          | none => simp [processWeatherRow, hd, h1, h2, h3, h4] at hrow
          | some hum =>
            cases h5 : lookupIdx d.surface_pressure i with
            | none => simp [processWeatherRow, hd, h1, h2, h3, h4, h5] at hrow
            | some pres =>
              cases h6 : lookupIdx d.windspeed_10m_max i with
              | none => simp [processWeatherRow, hd, h1, h2, h3, h4, h5, h6] at hrow
              | some wind =>
                simp only [processWeatherRow, hd, h1, h2, h3, h4, h5, h6, hp] at hrow
                rw [WRow.ok.injEq] at hrow
                subst hrow
                constructor
                · intro h0
                  simp [h0]
                · intro hpos
                  have hne : ¬ (p == 0) = true := by
                    simp only [beq_iff_eq]
                    exact ne_of_gt hpos
                  simp [hne]

/-- C2 witness: a zero-precipitation row yields "Clear". -/
theorem c2_precipitation_condition_witness :
    processWeatherRow exWD1 "Bentonville" 0 "2024-06-01" = .ok exWeatherRec ∧
    lookupIdx exWD1.precipitation_sum 0 = some (some 0) ∧
    ((0 : Rat) = 0 → exWeatherRec.weather_condition = "Clear") := by
  refine ⟨by decide, by decide, ?_⟩
  exact (c2_precipitation_condition exWD1 "Bentonville" "2024-06-01" 0
    exWeatherRec 0 (by decide) (by decide)).1

/-- C5: for every raw stock row that `process_stock_data` keeps, parsing each
raw string field again gives exactly the numeric value stored in the typed
record, for all eight numeric fields. -/
theorem c5_numeric_roundtrip (oneYearAgo : Date) (dateStr : String)
    (d : RawStockDaily) (r : StockRecord)
    (h : processStockRow oneYearAgo dateStr d = some r) :
    d.openStr.bind parseFloat = some r.open_price ∧
    d.highStr.bind parseFloat = some r.high_price ∧
    d.lowStr.bind parseFloat = some r.low_price ∧
    d.closeStr.bind parseFloat = some r.close_price ∧
    d.adjCloseStr.bind parseFloat = some r.adjusted_close ∧
    d.volumeStr.bind parseIntStr = some r.volume ∧
    d.dividendStr.bind parseFloat = some r.dividend_amount ∧
    d.splitStr.bind parseFloat = some r.split_coefficient := by
  cases hd : parseDate dateStr with
  | none => simp [processStockRow, hd] at h
  | some dt =>
    by_cases hw : dateLt dt oneYearAgo
    · simp [processStockRow, hd, hw] at h
    · cases hn : parseStockNums d with
      | none => simp [processStockRow, hd, hw, hn] at h
      | some tup =>
        obtain ⟨o, hi, lo, c, ac, v, da, sc⟩ := tup
        simp only [processStockRow, hd, hw, hn, Bool.false_eq_true, if_false,
          Option.some.injEq] at h
        subst h
        simp only [parseStockNums, Option.pure_def, Option.bind_eq_bind,
          Option.bind_eq_some, Option.some.injEq] at hn
        obtain ⟨o', ho, hi', hhi, lo', hlo, c', hc, ac', hac, v', hv, da', hda,
          sc', hsc, heq⟩ := hn
        simp only [Prod.mk.injEq] at heq
        obtain ⟨rfl, rfl, rfl, rfl, rfl, rfl, rfl, rfl⟩ := heq
        simp only [Option.bind_eq_some]
        exact ⟨ho, hhi, hlo, hc, hac, hv, hda, hsc⟩

/-- C5 witness: the kept row for 2024-06-01 round-trips its open price. -/
theorem c5_numeric_roundtrip_witness :
    processStockRow ⟨2024, 1, 1⟩ "2024-06-01" exRawGood = some exStockRec ∧
    exRawGood.openStr.bind parseFloat = some exStockRec.open_price := by
  refine ⟨by decide, ?_⟩
  exact (c5_numeric_roundtrip ⟨2024, 1, 1⟩ "2024-06-01" exRawGood exStockRec
    (by decide)).1

/-- C9 counterexample: `process_stock_data` is not a function of the raw
payload alone — it reads `date.today()` for its one-year window (modelled by
the `oneYearAgo` argument), so two evaluations of the source function on the
same payload, run on different days, return different lists. -/
theorem c9_counterexample :
    process_stock_data ⟨2024, 1, 1⟩ [("2024-06-01", exRawGood)] ≠
      process_stock_data ⟨2025, 1, 1⟩ [("2024-06-01", exRawGood)] := by decide

/-- C9 amended: `process_weather_data` is a pure function of the payload and
city, and `process_stock_data` is a pure function of the payload and the
current date: two evaluations with equal payloads (and, for stock, an equal
`date.today() - 365 days` cutoff) return the same list of typed records. -/
theorem c9_transformers_deterministic (c1 c2 : Date)
    (p1 p2 : List (String × RawStockDaily)) (d1 d2 : WeatherDaily)
    (ct1 ct2 : String)
    (hc : c1 = c2) (hp : p1 = p2) (hd : d1 = d2) (hct : ct1 = ct2) :
    process_stock_data c1 p1 = process_stock_data c2 p2 ∧
    process_weather_data d1 ct1 = process_weather_data d2 ct2 := by
  subst hc; subst hp; subst hd; subst hct
  exact ⟨rfl, rfl⟩

/-- C9 witness: determinism at a concrete payload. -/
theorem c9_transformers_deterministic_witness :
    process_stock_data ⟨2024, 1, 1⟩ [("2024-06-01", exRawGood)] =
      process_stock_data ⟨2024, 1, 1⟩ [("2024-06-01", exRawGood)] ∧
    process_weather_data exWD1 "Bentonville" =
      process_weather_data exWD1 "Bentonville" :=
  c9_transformers_deterministic ⟨2024, 1, 1⟩ ⟨2024, 1, 1⟩
    [("2024-06-01", exRawGood)] [("2024-06-01", exRawGood)] exWD1 exWD1
    "Bentonville" "Bentonville" rfl rfl rfl rfl

theorem load_env_error_of_missing (env : String → Option String)
    (h : env "DB_PASSWORD" = none ∨ env "ALPHA_VANTAGE_API_KEY" = none) :
    ∃ e, load_environment_variables env = .error e := by
  by_cases hk : falsyOptStr (env "ALPHA_VANTAGE_API_KEY") = true
  · exact ⟨"ALPHA_VANTAGE_API_KEY not found in environment variables", by
      simp [load_environment_variables, hk]⟩
  · have hpw : falsyOptStr (env "DB_PASSWORD") = true := by
      rcases h with h | h
      · rw [h]; rfl
      · exact absurd (by rw [h]; rfl) hk
    exact ⟨"DB_PASSWORD not found in environment variables", by
      simp [load_environment_variables, hk, hpw]⟩

/-- C4: when a required environment variable (the stock API key or the
database password) is missing, `load_environment_variables` raises a
configuration error, the run reports failure, and no HTTP call is ever
issued. -/
theorem c4_missing_env_aborts (w : World)
    (h : w.env "DB_PASSWORD" = none ∨ w.env "ALPHA_VANTAGE_API_KEY" = none) :
    (∃ e, load_environment_variables w.env = .error e) ∧
    (mainRun w).1 = false ∧
    Event.httpStock ∉ (mainRun w).2 ∧
    Event.httpWeather ∉ (mainRun w).2 := by
  obtain ⟨e, he⟩ := load_env_error_of_missing w.env h
  refine ⟨⟨e, he⟩, ?_, ?_, ?_⟩ <;> simp [mainRun, he]

/-- C4 witness: an environment with no variables at all aborts before any
HTTP call. -/
theorem c4_missing_env_aborts_witness :
    ((fun (_ : String) => (none : Option String)) "DB_PASSWORD" = none ∨
      (fun (_ : String) => (none : Option String)) "ALPHA_VANTAGE_API_KEY" = none) ∧
    (mainRun { exWorldOK with env := fun _ => none }).1 = false := by
  refine ⟨Or.inl rfl, ?_⟩
  exact (c4_missing_env_aborts { exWorldOK with env := fun _ => none }
    (Or.inl rfl)).2.1

theorem processStockRow_none_of_failure (oneYearAgo : Date) (s : String)
    (d : RawStockDaily) (h : stockConvFailure oneYearAgo s d) :
    processStockRow oneYearAgo s d = none := by
  rcases h with h | ⟨dt, hdt, hlt, hnum⟩
  · simp [processStockRow, h]
  · simp [processStockRow, hdt, hlt, hnum]

theorem process_stock_data_drop_none (oneYearAgo : Date) (s : String)
    (d : RawStockDaily) (h : processStockRow oneYearAgo s d = none) :
    ∀ xs ys, process_stock_data oneYearAgo (xs ++ (s, d) :: ys) =
      process_stock_data oneYearAgo (xs ++ ys) := by
  intro xs ys
  induction xs with
  | nil => simp [process_stock_data, h]
  | cons p rest ih =>
    obtain ⟨ps, pd⟩ := p
    simp only [List.cons_append, process_stock_data]
    cases hrow : processStockRow oneYearAgo ps pd <;> simp [hrow, ih]

theorem weatherAux_ok_of_rowsOkExcept (d : WeatherDaily) (city : String)
    (i : Nat) : ∀ (l : List String) (k : Nat),
    weatherRowsOkExcept d city i k l = true →
    weatherAux d city k l = .ok (weatherOkRecords d city k l) := by
  intro l
  induction l with
  | nil => intro k _; rfl
  | cons s rest ih =>
    intro k h
    unfold weatherRowsOkExcept at h
    rw [Bool.and_eq_true] at h
    obtain ⟨h1, h2⟩ := h
    unfold weatherAux weatherOkRecords
    by_cases hk : k = i
    · rw [if_pos hk] at h1
      cases hrow : processWeatherRow d city k s <;>
        rw [hrow] at h1 <;> simp [WRow.isSkip] at h1
      simp only
      exact ih (k + 1) h2
    · rw [if_neg hk] at h1
      cases hrow : processWeatherRow d city k s <;>
        rw [hrow] at h1 <;> simp [WRow.isOk] at h1
      simp only
      rw [ih (k + 1) h2]

theorem weatherOkRecords_length_allOk (d : WeatherDaily) (city : String)
    (i : Nat) : ∀ (l : List String) (k : Nat),
    weatherRowsOkExcept d city i k l = true → i < k →
    (weatherOkRecords d city k l).length = l.length := by
  intro l
  induction l with
  | nil => intro k _ _; rfl
  | cons s rest ih =>
    intro k h hik
    unfold weatherRowsOkExcept at h
    rw [Bool.and_eq_true] at h
    obtain ⟨h1, h2⟩ := h
    rw [if_neg (Nat.ne_of_gt hik)] at h1
    unfold weatherOkRecords
    cases hrow : processWeatherRow d city k s <;>
      rw [hrow] at h1 <;> simp [WRow.isOk] at h1
    simp only [List.length_cons]
    rw [ih (k + 1) h2 (Nat.lt_succ_of_lt hik)]

theorem weatherOkRecords_length_skipAt (d : WeatherDaily) (city : String)
    (i : Nat) : ∀ (l : List String) (k : Nat),
    weatherRowsOkExcept d city i k l = true → k ≤ i → i < k + l.length →
    (weatherOkRecords d city k l).length + 1 = l.length := by
  intro l
  induction l with
  | nil => intro k _ hle hlt; simp at hlt; omega
  | cons s rest ih =>
    intro k h hle hlt
    unfold weatherRowsOkExcept at h
    rw [Bool.and_eq_true] at h
    obtain ⟨h1, h2⟩ := h
    by_cases hk : k = i
    · rw [if_pos hk] at h1
      cases hrow : processWeatherRow d city k s <;>
        rw [hrow] at h1 <;> simp [WRow.isSkip] at h1
      unfold weatherOkRecords
      rw [hrow]
      simp only [List.length_cons]
      rw [weatherOkRecords_length_allOk d city i rest (k + 1) h2 (by omega)]
    · rw [if_neg hk] at h1
      cases hrow : processWeatherRow d city k s <;>
        rw [hrow] at h1 <;> simp [WRow.isOk] at h1
      unfold weatherOkRecords
      rw [hrow]
      simp only [List.length_cons]
      have := ih (k + 1) h2 (by omega) (by simp only [List.length_cons] at hlt; omega)
      omega

/-- C1: a record with a caught per-record conversion failure (bad date
format, missing field, non-numeric value) is skipped without aborting and
without affecting the remaining valid records: dropping a failing stock row
from the input leaves `process_stock_data`'s output unchanged, and a weather
run whose rows all convert except one skipped row returns exactly the records
of the other rows (one fewer than the input). -/
theorem c1_skip_and_continue :
    (∀ (oneYearAgo : Date) (s : String) (d : RawStockDaily)
        (xs ys : List (String × RawStockDaily)),
      stockConvFailure oneYearAgo s d →
      process_stock_data oneYearAgo (xs ++ (s, d) :: ys) =
        process_stock_data oneYearAgo (xs ++ ys)) ∧
    (∀ (d : WeatherDaily) (city : String) (i : Nat),
      i < d.time.length →
      weatherRowsOkExcept d city i 0 d.time = true →
      process_weather_data d city = .ok (weatherOkRecords d city 0 d.time) ∧
      (weatherOkRecords d city 0 d.time).length + 1 = d.time.length) := by
  constructor
  · intro oneYearAgo s d xs ys hfail
    exact process_stock_data_drop_none oneYearAgo s d
      (processStockRow_none_of_failure oneYearAgo s d hfail) xs ys
  · intro d city i hi hok
    refine ⟨weatherAux_ok_of_rowsOkExcept d city i d.time 0 hok, ?_⟩
    exact weatherOkRecords_length_skipAt d city i d.time 0 hok (Nat.zero_le i)
      (by simpa using hi)

/-- C1 witness: a non-numeric stock row and a bad-date weather row are each
skipped while the surrounding records survive. -/
theorem c1_skip_and_continue_witness :
    stockConvFailure ⟨2024, 1, 1⟩ "2024-06-02" exRawBad ∧
    process_stock_data ⟨2024, 1, 1⟩
        ([("2024-06-01", exRawGood)] ++ ("2024-06-02", exRawBad) ::
          [("2024-06-03", exRawGood)]) =
      process_stock_data ⟨2024, 1, 1⟩
        ([("2024-06-01", exRawGood)] ++ [("2024-06-03", exRawGood)]) ∧
    (1 < exWDBadDate.time.length ∧
      weatherRowsOkExcept exWDBadDate "Bentonville" 1 0 exWDBadDate.time = true) ∧
    process_weather_data exWDBadDate "Bentonville" =
      .ok (weatherOkRecords exWDBadDate "Bentonville" 0 exWDBadDate.time) ∧
    (weatherOkRecords exWDBadDate "Bentonville" 0 exWDBadDate.time).length + 1 =
      exWDBadDate.time.length := by
  have hfail : stockConvFailure ⟨2024, 1, 1⟩ "2024-06-02" exRawBad :=
    Or.inr ⟨⟨2024, 6, 2⟩, by decide, by decide, rfl⟩
  have hw := c1_skip_and_continue.2 exWDBadDate "Bentonville" 1 (by decide)
    (by decide)
  exact ⟨hfail,
    c1_skip_and_continue.1 ⟨2024, 1, 1⟩ "2024-06-02" exRawBad
      [("2024-06-01", exRawGood)] [("2024-06-03", exRawGood)] hfail,
    ⟨by decide, by decide⟩, hw.1, hw.2⟩

theorem weatherAux_error_of_fatal (d : WeatherDaily) (city : String) :
    ∀ (l : List String) (k j : Nat) (s : String),
    l.get? j = some s → processWeatherRow d city (k + j) s = .fatal →
    weatherAux d city k l = .error () := by
  intro l
  induction l with
  | nil => intro k j s hget _; simp at hget
  | cons a rest ih =>
    intro k j s hget hfat
    cases j with
    | zero =>
      rw [List.get?_cons_zero, Option.some.injEq] at hget
      subst hget
      rw [Nat.add_zero] at hfat
      unfold weatherAux
      rw [hfat]
    | succ j' =>
      rw [List.get?_cons_succ] at hget
      have hfat' : processWeatherRow d city ((k + 1) + j') s = .fatal := by
        rw [show (k + 1) + j' = k + (j' + 1) by omega]
        exact hfat
      unfold weatherAux
      cases hrow : processWeatherRow d city k a
      · rw [ih (k + 1) j' s hget hfat']
      · exact ih (k + 1) j' s hget hfat'
      · rfl

/-- C10: a weather row whose precipitation entry is `None` is not skipped:
the description's `precipitation > 0` guard raises a `TypeError`, which is
outside the caught set (`ValueError`, `KeyError`, `IndexError`), so the whole
`process_weather_data` call aborts instead of returning records. -/
theorem c10_null_precipitation_aborts (d : WeatherDaily) (city s : String)
    (i : Nat) (dt : Date) (v1 v2 v3 v4 v5 v6 : Option Rat)
    (hs : d.time.get? i = some s)
    (hd : parseDate s = some dt)
    (h1 : lookupIdx d.temperature_2m_max i = some v1)
    (h2 : lookupIdx d.temperature_2m_min i = some v2)
    (h3 : lookupIdx d.temperature_2m_mean i = some v3)
    (h4 : lookupIdx d.relative_humidity_2m_max i = some v4)
    (h5 : lookupIdx d.surface_pressure i = some v5)
    (h6 : lookupIdx d.windspeed_10m_max i = some v6)
    (hp : lookupIdx d.precipitation_sum i = some none) :
    process_weather_data d city = .error () := by
  have hfat : processWeatherRow d city i s = .fatal := by
    simp [processWeatherRow, hd, h1, h2, h3, h4, h5, h6, hp]
  exact weatherAux_error_of_fatal d city d.time 0 i s hs
    (by rw [Nat.zero_add]; exact hfat)

/-- C10 witness: a two-day payload whose second precipitation entry is null
aborts the whole weather transform. -/
theorem c10_null_precipitation_aborts_witness :
    exWDNull.time.get? 1 = some "2024-06-02" ∧
    lookupIdx exWDNull.precipitation_sum 1 = some none ∧
    process_weather_data exWDNull "Bentonville" = .error () := by
  refine ⟨by decide, by decide, ?_⟩
  exact c10_null_precipitation_aborts exWDNull "Bentonville" "2024-06-02" 1
    ⟨2024, 6, 2⟩ (some 30) (some 12) (some 20) (some 70) (some 1001) (some 6)
    (by decide) (by decide) (by decide) (by decide) (by decide) (by decide)
    (by decide) (by decide) (by decide)

/-- C6: in a run that reaches the loads and whose verification reads do not
themselves error, `main` executes the read-only verification stage after both
loads and reports overall success exactly when both tables hold at least one
row; an empty table means failure. -/
theorem c6_verification_gates_success (w : World) (cfg : String × DBConfig)
    (ts : List (String × RawStockDaily)) (wd : WeatherDaily) (city : String)
    (pw : List WeatherRecord) (db : DBState) (n1 n2 : Nat)
    (henv : load_environment_variables w.env = .ok cfg)
    (hsf : w.stockFetch = .ok ts)
    (hne : (process_stock_data w.oneYearAgo ts).isEmpty = false)
    (hwf : w.weatherFetch = .ok (wd, city))
    (hpw : process_weather_data wd city = .ok pw)
    (hco : w.connectOk = some db)
    (hload1 : (insert_stock_data w.stockStmtFails db.stock
        (process_stock_data w.oneYearAgo ts)).result = .ok n1)
    (hload2 : (insert_weather_data w.weatherStmtFails db.weather pw).result =
      .ok n2)
    (hverr : w.verifyErr = false) :
    Event.verify ∈ (mainRun w).2 ∧
    ((mainRun w).1 = true ↔
      ((insert_stock_data w.stockStmtFails db.stock
          (process_stock_data w.oneYearAgo ts)).table ≠ [] ∧
        (insert_weather_data w.weatherStmtFails db.weather pw).table ≠ [])) := by
  have hmain : mainRun w =
      (verify_data_insertion w.verifyErr
        ⟨(insert_stock_data w.stockStmtFails db.stock
            (process_stock_data w.oneYearAgo ts)).table,
          (insert_weather_data w.weatherStmtFails db.weather pw).table⟩,
        canonicalTrace) := by
    unfold mainRun
    simp only [henv, hsf, hne, hwf, hpw, hco, hload1, hload2,
      Bool.false_eq_true, if_false]
    rfl
  rw [hmain]
  constructor
  · simp [canonicalTrace]
  · simp only [verify_data_insertion, hverr, Bool.false_eq_true, if_false,
      Bool.and_eq_true, decide_eq_true_eq]
    rw [List.length_pos, List.length_pos]

/-- C6 witness: a fully successful run on an initially empty database reports
success, and both tables are non-empty afterwards. -/
theorem c6_verification_gates_success_witness :
    load_environment_variables exWorldOK.env =
      .ok ("testkey", ⟨"localhost", "5432", "walmart_sales_db", "postgres",
        some "pw"⟩) ∧
    Event.verify ∈ (mainRun exWorldOK).2 ∧
    ((mainRun exWorldOK).1 = true ↔
      ((insert_stock_data exWorldOK.stockStmtFails []
          (process_stock_data exWorldOK.oneYearAgo
            [("2024-06-01", exRawGood)])).table ≠ [] ∧
        (insert_weather_data exWorldOK.weatherStmtFails []
          [exWeatherRec]).table ≠ [])) := by
  refine ⟨rfl, ?_⟩
  exact c6_verification_gates_success exWorldOK
    ("testkey", ⟨"localhost", "5432", "walmart_sales_db", "postgres", some "pw"⟩)
    [("2024-06-01", exRawGood)] exWD1 "Bentonville" [exWeatherRec] ⟨[], []⟩ 1 1
    rfl rfl rfl rfl rfl rfl rfl rfl rfl

/-- C8 counterexample: in a fully successful run the stock transform stage
runs strictly before the weather HTTP fetch, so it is not the case that both
fetches complete before any transform runs. -/
theorem c8_counterexample :
    (mainRun exWorldOK).2 = canonicalTrace ∧
    Event.transformStock ∈ (mainRun exWorldOK).2 ∧
    Event.httpWeather ∈ (mainRun exWorldOK).2 ∧
    (mainRun exWorldOK).2.indexOf Event.transformStock <
      (mainRun exWorldOK).2.indexOf Event.httpWeather := by decide

/-- C8 amended: every run's stage trace is an in-order prefix of
INIT, FETCH_STOCK, TRANSFORM_STOCK, FETCH_WEATHER, TRANSFORM_WEATHER,
CONNECT, LOAD_STOCK, LOAD_WEATHER, VERIFY (possibly followed by the
connection close); any stage failure short-circuits the rest; an opened
connection is always closed; and a successful run performs every stage. -/
theorem c8_stage_order (w : World) :
    (∃ n, (mainRun w).2 = canonicalTrace.take n ∨
      (mainRun w).2 = canonicalTrace.take n ++ [Event.closeConn]) ∧
    (Event.connect ∈ (mainRun w).2 → Event.closeConn ∈ (mainRun w).2) ∧
    ((mainRun w).1 = true → (mainRun w).2 = canonicalTrace) := by
  unfold mainRun
  repeat' split
  all_goals first
    | exact ⟨⟨1, Or.inl rfl⟩, by decide, by decide⟩
    | exact ⟨⟨2, Or.inl rfl⟩, by decide, by decide⟩
    | exact ⟨⟨3, Or.inl rfl⟩, by decide, by decide⟩
    | exact ⟨⟨4, Or.inl rfl⟩, by decide, by decide⟩
    | exact ⟨⟨5, Or.inl rfl⟩, by decide, by decide⟩
    | exact ⟨⟨7, Or.inr rfl⟩, by decide, by decide⟩
    | exact ⟨⟨8, Or.inr rfl⟩, by decide, by decide⟩
    | exact ⟨⟨10, Or.inl rfl⟩, fun _ => by simp, fun _ => rfl⟩

/-- C8 witness: the amended ordering at a concrete fully successful world. -/
theorem c8_stage_order_witness :
    (∃ n, (mainRun exWorldOK).2 = canonicalTrace.take n ∨
      (mainRun exWorldOK).2 = canonicalTrace.take n ++ [Event.closeConn]) ∧
    (Event.connect ∈ (mainRun exWorldOK).2 →
      Event.closeConn ∈ (mainRun exWorldOK).2) ∧
    ((mainRun exWorldOK).1 = true → (mainRun exWorldOK).2 = canonicalTrace) :=
  c8_stage_order exWorldOK

end Ingestion
